import Mathlib

/-!
Shallow embedding of the epilayer thin-film interference toolkit.

Two source files are embedded:
* `doublebeam_epi_thickness.py` — class `EpilayerThicknessCalculator`
  (namespace `EpiThick` below);
* `thin_film_multibeam_interference_sim.py` — function
  `calculate_interference` and its module-level constants
  (namespace `MultiBeam` below).

Python floats are modelled as real numbers.  The single place where the
source can produce an IEEE NaN that a claim is about — `np.sqrt` of a
negative radicand in `_calc_cos_theta1` — is additionally modelled with an
`Option ℝ` codomain where `none` encodes NaN (numpy's `np.sqrt` of a
negative float returns `nan` with a `RuntimeWarning`; it does not raise).
-/

noncomputable section

open Real

namespace EpiThick

/-- `np.deg2rad(x)` : degrees to radians, `x * π / 180`. -/
def deg2rad (x : ℝ) : ℝ := x * Real.pi / 180

/-- `_calc_cos_theta1` (idealized real semantics):
`sin_theta1 = sin(deg2rad theta0_deg) / n1`,
`cos_theta1 = sqrt(1 - sin_theta1 ** 2)`.
(`Real.sqrt` of a negative number is `0`; the NaN-faithful variant is
`npCosTheta1` below.) -/
def calcCosTheta1 (n1 theta0_deg : ℝ) : ℝ :=
  Real.sqrt (1 - (Real.sin (deg2rad theta0_deg) / n1) ^ 2)

/-- `_calc_k` : `if self.n2 > self.n1: return self.m else: return self.m - 0.5`. -/
def calcK (n1 n2 m : ℝ) : ℝ :=
  if n1 < n2 then m else m - 0.5

/-- `np.sqrt` with numpy's NaN behaviour made explicit: on a negative
argument numpy returns `nan` (encoded `none`) and does not raise. -/
def npSqrt (x : ℝ) : Option ℝ :=
  if x < 0 then none else some (Real.sqrt x)

/-- `_calc_cos_theta1` with the NaN of `np.sqrt` tracked: `none` encodes the
NaN produced when the radicand `1 - (sin(theta0_rad)/n1)^2` is negative. -/
def npCosTheta1 (n1 theta0_deg : ℝ) : Option ℝ :=
  npSqrt (1 - (Real.sin (deg2rad theta0_deg) / n1) ^ 2)

/-- `calculate_thickness` with NaN propagation: a NaN `cos_theta1` makes the
thickness `self.k / (2 * self.n1 * self.cos_theta1 * self.nu_tilde)` NaN.
No code path raises an exception. -/
def npThickness (n1 n2 theta0_deg nu_tilde m : ℝ) : Option ℝ :=
  (npCosTheta1 n1 theta0_deg).map
    (fun c => calcK n1 n2 m / (2 * n1 * c * nu_tilde))

/-- Instance state of `EpilayerThicknessCalculator`: the five constructor
inputs, the two values pre-computed in `__init__`, and the three result
attributes initialized to `None`. -/
structure EpilayerThicknessCalculator where
  n1 : ℝ
  n2 : ℝ
  theta0_deg : ℝ
  nu_tilde : ℝ
  m : ℝ
  cos_theta1 : ℝ
  k : ℝ
  d : Option ℝ
  d_dn1 : Option ℝ
  d_dnu : Option ℝ

/-- `__init__(n1, n2, theta0_deg, nu_tilde, m)` : stores the five inputs,
pre-computes `cos_theta1` and `k`, and sets `d`, `d_dn1`, `d_dnu` to `None`. -/
def init (n1 n2 theta0_deg nu_tilde m : ℝ) : EpilayerThicknessCalculator :=
  { n1 := n1
    n2 := n2
    theta0_deg := theta0_deg
    nu_tilde := nu_tilde
    m := m
    cos_theta1 := calcCosTheta1 n1 theta0_deg
    k := calcK n1 n2 m
    d := none
    d_dn1 := none
    d_dnu := none }

/-- `calculate_thickness` : `self.d = self.k / (2 * self.n1 * self.cos_theta1
* self.nu_tilde); return self.d`.  Returned as (updated state, return value). -/
def calculate_thickness (s : EpilayerThicknessCalculator) :
    EpilayerThicknessCalculator × ℝ :=
  let d := s.k / (2 * s.n1 * s.cos_theta1 * s.nu_tilde)
  ({ s with d := some d }, d)

/-- `calculate_sensitivity` :
`self.d_dn1 = -self.k / (2 * self.nu_tilde * self.n1**2 * self.cos_theta1**3)`;
`self.d_dnu = -self.k / (2 * self.n1 * self.cos_theta1 * self.nu_tilde**2)`;
`return self.d_dn1, self.d_dnu`. -/
def calculate_sensitivity (s : EpilayerThicknessCalculator) :
    EpilayerThicknessCalculator × ℝ × ℝ :=
  let d_dn1 := -s.k / (2 * s.nu_tilde * s.n1 ^ 2 * s.cos_theta1 ^ 3)
  let d_dnu := -s.k / (2 * s.n1 * s.cos_theta1 * s.nu_tilde ^ 2)
  ({ s with d_dn1 := some d_dn1, d_dnu := some d_dnu }, d_dn1, d_dnu)

/-- `print_results` state effect: if any of `self.d`, `self.d_dn1`,
`self.d_dnu` is `None`, call `calculate_thickness` then
`calculate_sensitivity`; the printing itself touches no attribute. -/
def print_results (s : EpilayerThicknessCalculator) :
    EpilayerThicknessCalculator :=
  if s.d.isNone || s.d_dn1.isNone || s.d_dnu.isNone then
    (calculate_sensitivity (calculate_thickness s).1).1
  else
    s

end EpiThick

end

namespace EpiThick

/-- C2: the order-correction term computed at construction is `m` exactly
when `n2 > n1`, and `m - 0.5` exactly when `n2 ≤ n1` (boundary included). -/
theorem calcK_cases (n1 n2 m : ℝ) :
    (n1 < n2 → calcK n1 n2 m = m) ∧ (n2 ≤ n1 → calcK n1 n2 m = m - 0.5) := by
  constructor
  · intro h
    simp [calcK, h]
  · intro h
    simp [calcK, not_lt.mpr h]

/-- C2 witness: at `n1 = 2.65, n2 = 2.68, m = 1` the first branch gives
`k = 1`; with the indices swapped the second branch gives `k = 0.5`. -/
theorem calcK_cases_witness :
    calcK 2.65 2.68 1 = 1 ∧ calcK 2.68 2.65 1 = 1 - 0.5 :=
  ⟨(calcK_cases 2.65 2.68 1).1 (by norm_num),
   (calcK_cases 2.68 2.65 1).2 (by norm_num)⟩

/-- C3 counterexample: at `n1 = 1/2`, incidence `90°` the radicand is
negative (`sin(π/2) = 1 > 1/2`), yet the computation does not raise any
error: `_calc_cos_theta1` returns the NaN float that `np.sqrt` produces
(with a `RuntimeWarning`), and `calculate_thickness` returns a NaN
thickness.  A value is returned; nothing propagates as an exception. -/
theorem npThickness_returns_nan_at_halfindex :
    npCosTheta1 (1 / 2) 90 = none ∧ npThickness (1 / 2) 2.68 90 1000 1 = none := by
  have hrad : (1 : ℝ) - (Real.sin (deg2rad 90) / (1 / 2)) ^ 2 < 0 := by
    have h : deg2rad 90 = Real.pi / 2 := by
      unfold deg2rad; ring
    rw [h, Real.sin_pi_div_two]
    norm_num
  have h1 : npCosTheta1 (1 / 2) 90 = none := by
    unfold npCosTheta1 npSqrt
    rw [if_pos hrad]
  refine ⟨h1, ?_⟩
  unfold npThickness
  rw [h1]
  rfl

/-- C3 amended: whenever `0 < n1 < sin(incidence_rad)` the radicand of
`_calc_cos_theta1` is negative; `np.sqrt` then yields NaN (no exception),
so the stored `cos_theta1` is NaN and the thickness computed from it is
NaN.  The computation returns these NaN values instead of failing. -/
theorem npThickness_nan_of_neg_radicand (n1 n2 theta0_deg nu_tilde m : ℝ)
    (hn1 : 0 < n1) (hsin : n1 < Real.sin (deg2rad theta0_deg)) :
    npCosTheta1 n1 theta0_deg = none ∧
      npThickness n1 n2 theta0_deg nu_tilde m = none := by
  have hq : 1 < Real.sin (deg2rad theta0_deg) / n1 :=
    (one_lt_div hn1).mpr hsin
  have hrad : (1 : ℝ) - (Real.sin (deg2rad theta0_deg) / n1) ^ 2 < 0 := by
    nlinarith
  have h1 : npCosTheta1 n1 theta0_deg = none := by
    unfold npCosTheta1 npSqrt
    rw [if_pos hrad]
  refine ⟨h1, ?_⟩
  unfold npThickness
  rw [h1]
  rfl

/-- C3 amended witness: concrete instance `n1 = 1/4`, incidence `90°`. -/
theorem npThickness_nan_of_neg_radicand_witness :
    npCosTheta1 (1 / 4) 90 = none ∧ npThickness (1 / 4) 3 90 1000 1 = none := by
  have h : deg2rad 90 = Real.pi / 2 := by
    unfold deg2rad; ring
  exact npThickness_nan_of_neg_radicand (1 / 4) 3 90 1000 1 (by norm_num)
    (by rw [h, Real.sin_pi_div_two]; norm_num)

/-- C5: for valid inputs (incidence between 0° and 90°, positive wavenumber)
with `n1 > sin(incidence_rad)`, the value returned by
`calculate_thickness` is `k / (2 · n1 · cos_theta1 · nu_tilde)`, and it is
strictly positive whenever `k > 0`. -/
theorem calculate_thickness_spec (n1 n2 theta0_deg nu_tilde m : ℝ)
    (h0 : 0 ≤ theta0_deg) (h90 : theta0_deg ≤ 90)
    (hsin : Real.sin (deg2rad theta0_deg) < n1) (hnu : 0 < nu_tilde) :
    (calculate_thickness (init n1 n2 theta0_deg nu_tilde m)).2 =
      calcK n1 n2 m / (2 * n1 * calcCosTheta1 n1 theta0_deg * nu_tilde) ∧
    (0 < calcK n1 n2 m →
      0 < (calculate_thickness (init n1 n2 theta0_deg nu_tilde m)).2) := by
  have hrad0 : 0 ≤ deg2rad theta0_deg := by
    unfold deg2rad
    positivity
  have hradpi : deg2rad theta0_deg ≤ Real.pi := by
    unfold deg2rad
    nlinarith [Real.pi_pos]
  have hs0 : 0 ≤ Real.sin (deg2rad theta0_deg) :=
    Real.sin_nonneg_of_nonneg_of_le_pi hrad0 hradpi
  have hn1 : 0 < n1 := lt_of_le_of_lt hs0 hsin
  have hq1 : Real.sin (deg2rad theta0_deg) / n1 < 1 := (div_lt_one hn1).mpr hsin
  have hq0 : 0 ≤ Real.sin (deg2rad theta0_deg) / n1 := div_nonneg hs0 hn1.le
  have hcos : 0 < calcCosTheta1 n1 theta0_deg := by
    unfold calcCosTheta1
    apply Real.sqrt_pos.mpr
    nlinarith
  refine ⟨rfl, fun hk => ?_⟩
  have hden : 0 < 2 * n1 * calcCosTheta1 n1 theta0_deg * nu_tilde := by
    positivity
  exact div_pos hk hden

/-- C5 witness: the default SiC inputs are valid, and the returned
thickness equals the formula and is positive. -/
theorem calculate_thickness_spec_witness :
    (calculate_thickness (init 2.65 2.68 15 1000 1)).2 =
      calcK 2.65 2.68 1 / (2 * 2.65 * calcCosTheta1 2.65 15 * 1000) ∧
    0 < (calculate_thickness (init 2.65 2.68 15 1000 1)).2 := by
  have hsin : Real.sin (deg2rad 15) < 2.65 := by
    have := Real.sin_le_one (deg2rad 15)
    linarith
  have h := calculate_thickness_spec 2.65 2.68 15 1000 1 (by norm_num)
    (by norm_num) hsin (by norm_num)
  refine ⟨h.1, h.2 ?_⟩
  unfold calcK
  rw [if_pos (by norm_num)]
  norm_num

/-- C6: whenever `k`, `n1`, `cos_theta1`, `nu_tilde` are all positive, both
sensitivities returned by `calculate_sensitivity` are strictly negative. -/
theorem calculate_sensitivity_neg (n1 n2 theta0_deg nu_tilde m : ℝ)
    (hk : 0 < calcK n1 n2 m) (hn1 : 0 < n1)
    (hcos : 0 < calcCosTheta1 n1 theta0_deg) (hnu : 0 < nu_tilde) :
    (calculate_sensitivity (init n1 n2 theta0_deg nu_tilde m)).2.1 < 0 ∧
    (calculate_sensitivity (init n1 n2 theta0_deg nu_tilde m)).2.2 < 0 := by
  constructor
  · show -calcK n1 n2 m /
        (2 * nu_tilde * n1 ^ 2 * calcCosTheta1 n1 theta0_deg ^ 3) < 0
    apply div_neg_of_neg_of_pos (by linarith)
    positivity
  · show -calcK n1 n2 m /
        (2 * n1 * calcCosTheta1 n1 theta0_deg * nu_tilde ^ 2) < 0
    apply div_neg_of_neg_of_pos (by linarith)
    positivity

/-- The pre-computed refraction cosine is positive at the default inputs. -/
lemma cos15_pos : 0 < calcCosTheta1 2.65 15 := by
  unfold calcCosTheta1
  apply Real.sqrt_pos.mpr
  have h1 := Real.sin_le_one (deg2rad 15)
  have h2 := Real.neg_one_le_sin (deg2rad 15)
  have hs2 : Real.sin (deg2rad 15) ^ 2 ≤ 1 := by nlinarith
  have hdiv : (Real.sin (deg2rad 15)) ^ 2 / (2.65 : ℝ) ^ 2 ≤ 1 / (2.65 : ℝ) ^ 2 := by
    gcongr
  rw [div_pow]
  nlinarith

/-- C6 witness: at the default SiC inputs both sensitivities are negative. -/
theorem calculate_sensitivity_neg_witness :
    (calculate_sensitivity (init 2.65 2.68 15 1000 1)).2.1 < 0 ∧
    (calculate_sensitivity (init 2.65 2.68 15 1000 1)).2.2 < 0 := by
  apply calculate_sensitivity_neg
  · unfold calcK
    rw [if_pos (by norm_num)]
    norm_num
  · norm_num
  · exact cos15_pos
  · norm_num

lemma sqrt_two_lb : (1.41421 : ℝ) < Real.sqrt 2 :=
  (Real.lt_sqrt (by norm_num)).mpr (by norm_num)

lemma sqrt_two_ub : Real.sqrt 2 < 1.41422 :=
  (Real.sqrt_lt' (by norm_num)).mpr (by norm_num)

lemma sqrt_six_lb : (2.44948 : ℝ) < Real.sqrt 6 :=
  (Real.lt_sqrt (by norm_num)).mpr (by norm_num)

lemma sqrt_six_ub : Real.sqrt 6 < 2.44949 :=
  (Real.sqrt_lt' (by norm_num)).mpr (by norm_num)

lemma sin_pi_div_twelve_eq :
    Real.sin (Real.pi / 12) = (Real.sqrt 6 - Real.sqrt 2) / 4 := by
  have h : (Real.pi / 12 : ℝ) = Real.pi / 3 - Real.pi / 4 := by ring
  rw [h, Real.sin_sub, Real.sin_pi_div_three, Real.cos_pi_div_four,
    Real.cos_pi_div_three, Real.sin_pi_div_four]
  have h6 : Real.sqrt 3 * Real.sqrt 2 = Real.sqrt 6 := by
    rw [← Real.sqrt_mul (by norm_num : (0 : ℝ) ≤ 3)]
    norm_num
  calc Real.sqrt 3 / 2 * (Real.sqrt 2 / 2) - 1 / 2 * (Real.sqrt 2 / 2)
      = Real.sqrt 3 * Real.sqrt 2 / 4 - Real.sqrt 2 / 4 := by ring
    _ = (Real.sqrt 6 - Real.sqrt 2) / 4 := by rw [h6]; ring

lemma sin15_bounds :
    0.258815 < Real.sin (deg2rad 15) ∧ Real.sin (deg2rad 15) < 0.258820 := by
  have h : deg2rad 15 = Real.pi / 12 := by
    unfold deg2rad; ring
  rw [h, sin_pi_div_twelve_eq]
  have h1 := sqrt_two_lb
  have h2 := sqrt_two_ub
  have h3 := sqrt_six_lb
  have h4 := sqrt_six_ub
  constructor <;> linarith

lemma cos15_bounds :
    0.995219 < calcCosTheta1 2.65 15 ∧ calcCosTheta1 2.65 15 < 0.995220 := by
  obtain ⟨hlo, hhi⟩ := sin15_bounds
  unfold calcCosTheta1
  constructor
  · apply (Real.lt_sqrt (by norm_num)).mpr
    have hd : Real.sin (deg2rad 15) / 2.65 < 0.258820 / 2.65 :=
      (div_lt_div_iff_of_pos_right (by norm_num)).mpr hhi
    have hd0 : 0 ≤ Real.sin (deg2rad 15) / 2.65 := by positivity
    have hsq : (Real.sin (deg2rad 15) / 2.65) ^ 2 < (0.258820 / 2.65) ^ 2 := by
      exact pow_lt_pow_left hd hd0 (by norm_num)
    nlinarith
  · apply (Real.sqrt_lt' (by norm_num)).mpr
    have hd : (0.258815 : ℝ) / 2.65 < Real.sin (deg2rad 15) / 2.65 :=
      (div_lt_div_iff_of_pos_right (by norm_num)).mpr hlo
    have hsq : ((0.258815 : ℝ) / 2.65) ^ 2 < (Real.sin (deg2rad 15) / 2.65) ^ 2 := by
      exact pow_lt_pow_left hd (by norm_num) (by norm_num)
    nlinarith

/-- C4 counterexample: at the default SiC inputs the computed refraction
cosine differs from the spec value 0.99946 by more than 0.004 (it is below
0.99522), and the computed thickness differs from 1.8868e-4 by more than
8e-7 (it is above 1.8958e-4), so the thickness does not round to the spec
value at 4 significant figures. -/
theorem defaults_contradict_spec_values :
    0.004 < |calcCosTheta1 2.65 15 - 0.99946| ∧
    0.0000008 < |(calculate_thickness (init 2.65 2.68 15 1000 1)).2 - 0.00018868| := by
  obtain ⟨hclo, hchi⟩ := cos15_bounds
  have hk : calcK 2.65 2.68 1 = 1 := by
    unfold calcK
    rw [if_pos (by norm_num)]
  have hd : (calculate_thickness (init 2.65 2.68 15 1000 1)).2 =
      calcK 2.65 2.68 1 / (2 * 2.65 * calcCosTheta1 2.65 15 * 1000) := rfl
  have hdlo : 0.00018958 < (calculate_thickness (init 2.65 2.68 15 1000 1)).2 := by
    rw [hd, hk]
    rw [lt_div_iff (by nlinarith)]
    nlinarith
  constructor
  · have h1 : (0.004 : ℝ) < 0.99946 - calcCosTheta1 2.65 15 := by linarith
    calc (0.004 : ℝ) < 0.99946 - calcCosTheta1 2.65 15 := h1
      _ ≤ |0.99946 - calcCosTheta1 2.65 15| := le_abs_self _
      _ = |calcCosTheta1 2.65 15 - 0.99946| := abs_sub_comm _ _
  · have h1 : (0.0000008 : ℝ) <
        (calculate_thickness (init 2.65 2.68 15 1000 1)).2 - 0.00018868 := by
      linarith
    calc (0.0000008 : ℝ)
        < (calculate_thickness (init 2.65 2.68 15 1000 1)).2 - 0.00018868 := h1
      _ ≤ |(calculate_thickness (init 2.65 2.68 15 1000 1)).2 - 0.00018868| :=
          le_abs_self _

/-- C4 amended: with the default SiC inputs `n1=2.65, n2=2.68,
incidence 15°, wavenumber 1000, m=1`, the refraction cosine lies in
(0.995219, 0.995220) (≈ 0.99522), `k = 1`, the thickness lies in
(1.8958e-4, 1.8959e-4) cm (1.896e-4 to 4 significant figures), and both
sensitivities are negative. -/
theorem defaults_computed_values :
    calcK 2.65 2.68 1 = 1 ∧
    0.995219 < calcCosTheta1 2.65 15 ∧ calcCosTheta1 2.65 15 < 0.995220 ∧
    0.00018958 < (calculate_thickness (init 2.65 2.68 15 1000 1)).2 ∧
    (calculate_thickness (init 2.65 2.68 15 1000 1)).2 < 0.00018959 ∧
    (calculate_sensitivity (init 2.65 2.68 15 1000 1)).2.1 < 0 ∧
    (calculate_sensitivity (init 2.65 2.68 15 1000 1)).2.2 < 0 := by
  obtain ⟨hclo, hchi⟩ := cos15_bounds
  have hk : calcK 2.65 2.68 1 = 1 := by
    unfold calcK
    rw [if_pos (by norm_num)]
  have hd : (calculate_thickness (init 2.65 2.68 15 1000 1)).2 =
      calcK 2.65 2.68 1 / (2 * 2.65 * calcCosTheta1 2.65 15 * 1000) := rfl
  refine ⟨hk, hclo, hchi, ?_, ?_, ?_, ?_⟩
  · rw [hd, hk, lt_div_iff (by nlinarith)]
    nlinarith
  · rw [hd, hk, div_lt_iff (by nlinarith)]
    nlinarith
  · show -calcK 2.65 2.68 1 / (2 * 1000 * 2.65 ^ 2 * calcCosTheta1 2.65 15 ^ 3) < 0
    rw [hk]
    apply div_neg_of_neg_of_pos (by norm_num)
    have hc3 : 0 < calcCosTheta1 2.65 15 ^ 3 :=
      pow_pos (by linarith) 3
    nlinarith
  · show -calcK 2.65 2.68 1 / (2 * 2.65 * calcCosTheta1 2.65 15 * 1000 ^ 2) < 0
    rw [hk]
    apply div_neg_of_neg_of_pos (by norm_num)
    nlinarith

/-- C9: each public operation (`calculate_thickness`,
`calculate_sensitivity`, `print_results`) leaves the five inputs and the
construction-time derived values `cos_theta1` and `k` unchanged; only `d`,
`d_dn1`, `d_dnu` are ever written after construction. -/
theorem frame_preserved (s : EpilayerThicknessCalculator) :
    ((calculate_thickness s).1.n1 = s.n1 ∧ (calculate_thickness s).1.n2 = s.n2 ∧
     (calculate_thickness s).1.theta0_deg = s.theta0_deg ∧
     (calculate_thickness s).1.nu_tilde = s.nu_tilde ∧
     (calculate_thickness s).1.m = s.m ∧
     (calculate_thickness s).1.cos_theta1 = s.cos_theta1 ∧
     (calculate_thickness s).1.k = s.k) ∧
    ((calculate_sensitivity s).1.n1 = s.n1 ∧ (calculate_sensitivity s).1.n2 = s.n2 ∧
     (calculate_sensitivity s).1.theta0_deg = s.theta0_deg ∧
     (calculate_sensitivity s).1.nu_tilde = s.nu_tilde ∧
     (calculate_sensitivity s).1.m = s.m ∧
     (calculate_sensitivity s).1.cos_theta1 = s.cos_theta1 ∧
     (calculate_sensitivity s).1.k = s.k) ∧
    ((print_results s).n1 = s.n1 ∧ (print_results s).n2 = s.n2 ∧
     (print_results s).theta0_deg = s.theta0_deg ∧
     (print_results s).nu_tilde = s.nu_tilde ∧
     (print_results s).m = s.m ∧
     (print_results s).cos_theta1 = s.cos_theta1 ∧
     (print_results s).k = s.k) := by
  refine ⟨⟨rfl, rfl, rfl, rfl, rfl, rfl, rfl⟩,
          ⟨rfl, rfl, rfl, rfl, rfl, rfl, rfl⟩, ?_⟩
  unfold print_results
  split
  · exact ⟨rfl, rfl, rfl, rfl, rfl, rfl, rfl⟩
  · exact ⟨rfl, rfl, rfl, rfl, rfl, rfl, rfl⟩

end EpiThick

noncomputable section

namespace MultiBeam

/-- Module constant `Ai = 1` (amplitude of incident light). -/
def Ai_const : ℝ := 1

/-- Module constant `a = 25 * np.pi / 180` (azimuth of incident amplitude). -/
def a_const : ℝ := 25 * Real.pi / 180

/-- Module constant `Asi = Ai * np.sin(a)` (s-wave incident amplitude).
Reads the module-level `Ai` and `a`. -/
def Asi : ℝ := Ai_const * Real.sin a_const

/-- Module constant `Api = Ai * np.cos(a)` (p-wave incident amplitude). -/
def Api : ℝ := Ai_const * Real.cos a_const

/-- `P(rs, rp)` : combined reflectance; reads the module-level global `a`,
not any parameter of `calculate_interference`. -/
def P (rs rp : ℝ) : ℝ :=
  (rs * Real.sin a_const) ^ 2 + (rp * Real.cos a_const) ^ 2

/-- `Rs(i, r)` : s-wave Fresnel reflection coefficient. -/
def Rs (i r : ℝ) : ℝ := -Real.sin (i - r) / Real.sin (i + r)

/-- `Rp(i, r)` : p-wave Fresnel reflection coefficient. -/
def Rp (i r : ℝ) : ℝ := Real.tan (i - r) / Real.tan (i + r)

/-- `Ts(i, r)` : s-wave Fresnel transmission coefficient. -/
def Ts (i r : ℝ) : ℝ := 2 * Real.sin r * Real.cos i / Real.sin (i + r)

/-- `Tp(i, r)` : p-wave Fresnel transmission coefficient. -/
def Tp (i r : ℝ) : ℝ :=
  2 * Real.sin r * Real.cos i / (Real.sin (i + r) * Real.cos (i - r))

/-- `np.arange(start, stop, step)` : the elements `start + k*step` for
`0 ≤ k < ⌈(stop - start)/step⌉` (numpy's length formula, clamped at 0). -/
def arange (start stop step : ℝ) : List ℝ :=
  (List.range ⌈(stop - start) / step⌉₊).map (fun (k : ℕ) => start + (k : ℝ) * step)

/-- `r1 = np.arcsin(np.sin(i1) / n)` : refraction angle (Snell's law),
per angle. -/
def r1 (n i : ℝ) : ℝ := Real.arcsin (Real.sin i / n)

/-- `delta = 4 * np.pi / lambda_ * n * h * np.cos(r1)` : phase difference
between adjacent transmitted beams, per angle. -/
def deltaPh (lambda_ n h i : ℝ) : ℝ :=
  4 * Real.pi / lambda_ * n * h * Real.cos (r1 n i)

/-- `As = Asi * Ts(i1, r1) * Ts(r1, i1)` per angle (reads the global `Asi`). -/
def AsAmp (n i : ℝ) : ℝ := Asi * Ts i (r1 n i) * Ts (r1 n i) i

/-- `Ap = Api * Tp(i1, r1) * Tp(r1, i1)` per angle (reads the global `Api`). -/
def ApAmp (n i : ℝ) : ℝ := Api * Tp i (r1 n i) * Tp (r1 n i) i

/-- One angle's entry of
`It_1 = np.abs(Ast.sum(axis=1))**2 + np.abs(Apt.sum(axis=1))**2`, where
`Ast = As[:,None] * Rs(r1,i1)[:,None]**(2*powers) * np.exp(1j*delta)[:,None]**powers`
and likewise `Apt`, with `powers = np.arange(N)`. -/
def It1at (N : ℕ) (lambda_ n h i : ℝ) : ℝ :=
  Complex.abs (∑ j ∈ Finset.range N,
      (AsAmp n i : ℂ) * ((Rs (r1 n i) i : ℝ) : ℂ) ^ (2 * j) *
        Complex.exp (Complex.I * ((deltaPh lambda_ n h i : ℝ) : ℂ)) ^ j) ^ 2 +
  Complex.abs (∑ j ∈ Finset.range N,
      (ApAmp n i : ℂ) * ((Rp (r1 n i) i : ℝ) : ℂ) ^ (2 * j) *
        Complex.exp (Complex.I * ((deltaPh lambda_ n h i : ℝ) : ℂ)) ^ j) ^ 2

/-- One angle's entry of the textbook-formula intensity
`It_2 = (1-p)**2 / ((1-p)**2 + 4*p*np.sin(delta/2)**2) * Ai**2`
with `p = P(Rs(i1, r1), Rp(i1, r1))`. -/
def It2at (lambda_ n h Ai i : ℝ) : ℝ :=
  (1 - P (Rs i (r1 n i)) (Rp i (r1 n i))) ^ 2 /
      ((1 - P (Rs i (r1 n i)) (Rp i (r1 n i))) ^ 2 +
        4 * P (Rs i (r1 n i)) (Rp i (r1 n i)) *
          Real.sin (deltaPh lambda_ n h i / 2) ^ 2) * Ai ^ 2

/-- The six sequences returned by `calculate_interference`. -/
structure InterferenceResult where
  i1 : List ℝ
  It_1 : List ℝ
  It_2 : List ℝ
  s_amplitudes : List ℝ
  p_amplitudes : List ℝ
  orders : List ℕ

/-- `calculate_interference(N, lambda_, n, h, Ai, a, theta_max, delta_theta,
fixed_angle)`.  The body reads the module-level `Asi`, `Api` (via `AsAmp`,
`ApAmp` and the fixed-angle amplitudes) and the module-level `a` (via `P`);
the `a` parameter is never read.  `orders = np.arange(1, N + 1)` and
`s_amplitudes = As_dir * (Rs(ii, r)**2)**(orders - 1)` (likewise `p`). -/
def calculate_interference (N : ℕ)
    (lambda_ n h Ai a theta_max delta_theta fixed_angle : ℝ) :
    InterferenceResult :=
  let i1 := arange (-theta_max) (theta_max + delta_theta) delta_theta
  let r := r1 n fixed_angle
  let As_dir := Asi * Ts fixed_angle r * Ts r fixed_angle
  let Ap_dir := Api * Tp fixed_angle r * Tp r fixed_angle
  let orders := (List.range N).map (fun j => j + 1)
  { i1 := i1
    It_1 := i1.map (fun i => It1at N lambda_ n h i)
    It_2 := i1.map (fun i => It2at lambda_ n h Ai i)
    s_amplitudes := orders.map (fun o => As_dir * (Rs fixed_angle r ^ 2) ^ (o - 1))
    p_amplitudes := orders.map (fun o => Ap_dir * (Rp fixed_angle r ^ 2) ^ (o - 1))
    orders := orders }

/-- `getD` through `map`, for an in-range index. -/
lemma getD_map_lt {α : Type} (f : α → ℝ) (l : List α) (d : α) (idx : ℕ)
    (h : idx < l.length) :
    (l.map f).getD idx 0 = f (l.getD idx d) := by
  rw [List.getD_eq_getElem?_getD, List.getElem?_map,
    List.getElem?_eq_getElem h, List.getD_eq_getElem?_getD,
    List.getElem?_eq_getElem h]
  rfl

/-- `getD` on `List.range`, for an in-range index. -/
lemma range_getD (n j : ℕ) (h : j < n) : (List.range n).getD j 0 = j := by
  rw [List.getD_eq_getElem?_getD, List.getElem?_range h]
  rfl

/-- The sweep elements in closed form: index `idx` holds `start + idx*step`. -/
lemma arange_getD (start stop step : ℝ) (idx : ℕ)
    (h : idx < ⌈(stop - start) / step⌉₊) :
    (arange start stop step).getD idx 0 = start + (idx : ℝ) * step := by
  unfold arange
  rw [List.getD_eq_getElem?_getD, List.getElem?_map, List.getElem?_range h]
  rfl

lemma arange_length (start stop step : ℝ) :
    (arange start stop step).length = ⌈(stop - start) / step⌉₊ := by
  simp [arange]

end MultiBeam

end

namespace MultiBeam

/-- C10: `calculate_interference` never reads its azimuth parameter `a` —
the body uses the module-level `Asi`, `Api` and (inside `P`) the global
`a` — so two calls that differ only in `a` return identical results. -/
theorem azimuth_parameter_ignored (N : ℕ)
    (lambda_ n h Ai a a' theta_max delta_theta fixed_angle : ℝ) :
    calculate_interference N lambda_ n h Ai a theta_max delta_theta fixed_angle =
      calculate_interference N lambda_ n h Ai a' theta_max delta_theta fixed_angle :=
  rfl

/-- C7: for a positive range bound and step, the angle sweep built by
`calculate_interference` is strictly increasing with step `delta_theta`,
its first element equals `-theta_max`, and its last element is at least
`theta_max - delta_theta` (in fact at least `theta_max`). -/
theorem sweep_endpoints (N : ℕ)
    (lambda_ n h Ai a theta_max delta_theta fixed_angle : ℝ)
    (htm : 0 < theta_max) (hdt : 0 < delta_theta) :
    (calculate_interference N lambda_ n h Ai a theta_max delta_theta
        fixed_angle).i1 ≠ [] ∧
    (calculate_interference N lambda_ n h Ai a theta_max delta_theta
        fixed_angle).i1.getD 0 0 = -theta_max ∧
    theta_max - delta_theta ≤
      (calculate_interference N lambda_ n h Ai a theta_max delta_theta
        fixed_angle).i1.getD
        ((calculate_interference N lambda_ n h Ai a theta_max delta_theta
          fixed_angle).i1.length - 1) 0 ∧
    List.Pairwise (· < ·)
      (calculate_interference N lambda_ n h Ai a theta_max delta_theta
        fixed_angle).i1 ∧
    ∀ idx : ℕ,
      idx < (calculate_interference N lambda_ n h Ai a theta_max delta_theta
        fixed_angle).i1.length →
      (calculate_interference N lambda_ n h Ai a theta_max delta_theta
        fixed_angle).i1.getD idx 0 = -theta_max + (idx : ℝ) * delta_theta := by
  have hi1 : (calculate_interference N lambda_ n h Ai a theta_max delta_theta
      fixed_angle).i1 = arange (-theta_max) (theta_max + delta_theta) delta_theta := rfl
  have hql : (0 : ℝ) < (theta_max + delta_theta - -theta_max) / delta_theta :=
    div_pos (by linarith) hdt
  have hL : 0 < ⌈(theta_max + delta_theta - -theta_max) / delta_theta⌉₊ :=
    Nat.ceil_pos.mpr hql
  have hlen : (calculate_interference N lambda_ n h Ai a theta_max delta_theta
      fixed_angle).i1.length =
      ⌈(theta_max + delta_theta - -theta_max) / delta_theta⌉₊ := by
    rw [hi1, arange_length]
  refine ⟨?_, ?_, ?_, ?_, ?_⟩
  · intro hnil
    rw [hi1] at hnil
    have hz := congrArg List.length hnil
    rw [arange_length] at hz
    simp only [List.length_nil] at hz
    omega
  · rw [hi1, arange_getD _ _ _ 0 hL]
    simp
  · rw [hlen, hi1, arange_getD _ _ _ _ (by omega)]
    have hceil : ((theta_max + delta_theta - -theta_max) / delta_theta : ℝ) ≤
        (⌈(theta_max + delta_theta - -theta_max) / delta_theta⌉₊ : ℝ) :=
      Nat.le_ceil _
    have hmul : theta_max + delta_theta - -theta_max ≤
        (⌈(theta_max + delta_theta - -theta_max) / delta_theta⌉₊ : ℝ) * delta_theta :=
      (div_le_iff hdt).mp hceil
    have hcast : ((⌈(theta_max + delta_theta - -theta_max) / delta_theta⌉₊ - 1 : ℕ) : ℝ) =
        (⌈(theta_max + delta_theta - -theta_max) / delta_theta⌉₊ : ℝ) - 1 := by
      rw [Nat.cast_sub (by omega)]
      simp
    rw [hcast]
    nlinarith
  · rw [hi1]
    unfold arange
    rw [List.pairwise_map]
    apply List.Pairwise.imp ?_ (List.pairwise_lt_range _)
    intro x y hxy
    have : (x : ℝ) < (y : ℝ) := Nat.cast_lt.mpr hxy
    nlinarith
  · intro idx hidx
    rw [hlen] at hidx
    rw [hi1, arange_getD _ _ _ _ hidx]

/-- C7 witness: with `theta_max = 1`, `delta_theta = 1/2` the sweep is
nonempty, starts at `-1` and ends at a value `≥ 1 - 1/2`. -/
theorem sweep_endpoints_witness :
    (calculate_interference 2 500 10 25000 1 0 1 (1/2) 0).i1 ≠ [] ∧
    (calculate_interference 2 500 10 25000 1 0 1 (1/2) 0).i1.getD 0 0 = -1 ∧
    (1 : ℝ) - 1/2 ≤
      (calculate_interference 2 500 10 25000 1 0 1 (1/2) 0).i1.getD
        ((calculate_interference 2 500 10 25000 1 0 1 (1/2) 0).i1.length - 1) 0 := by
  have h := sweep_endpoints 2 500 10 25000 1 0 1 (1/2) 0 (by norm_num) (by norm_num)
  exact ⟨h.1, h.2.1, h.2.2.1⟩

/-- C1: for every angle `theta` in the sweep, the decomposed intensity
`It_1` at that angle is the sum over the two polarizations of the squared
magnitude of the complex sum over the `N` orders `j = 0..N-1` of
(incident amplitude × the two first-pass transmissions) ×
(reflection coefficient²)^order × (exp(i·δ))^order, with
`δ = 4π/λ · n · h · cos(refraction)`. -/
theorem It1_per_order_decomposition (N : ℕ)
    (lambda_ n h Ai a theta_max delta_theta fixed_angle : ℝ) (idx : ℕ)
    (hidx : idx < (calculate_interference N lambda_ n h Ai a theta_max
      delta_theta fixed_angle).i1.length) (theta : ℝ)
    (htheta : theta = (calculate_interference N lambda_ n h Ai a theta_max
      delta_theta fixed_angle).i1.getD idx 0) :
    (calculate_interference N lambda_ n h Ai a theta_max delta_theta
        fixed_angle).It_1.getD idx 0 =
      Complex.abs (∑ j ∈ Finset.range N,
        ((Asi * Ts theta (r1 n theta) * Ts (r1 n theta) theta : ℝ) : ℂ) *
          ((Rs (r1 n theta) theta : ℝ) : ℂ) ^ (2 * j) *
          Complex.exp (Complex.I *
            ((4 * Real.pi / lambda_ * n * h * Real.cos (r1 n theta) : ℝ) : ℂ)) ^ j) ^ 2 +
      Complex.abs (∑ j ∈ Finset.range N,
        ((Api * Tp theta (r1 n theta) * Tp (r1 n theta) theta : ℝ) : ℂ) *
          ((Rp (r1 n theta) theta : ℝ) : ℂ) ^ (2 * j) *
          Complex.exp (Complex.I *
            ((4 * Real.pi / lambda_ * n * h * Real.cos (r1 n theta) : ℝ) : ℂ)) ^ j) ^ 2 := by
  subst htheta
  have hIt : (calculate_interference N lambda_ n h Ai a theta_max delta_theta
      fixed_angle).It_1 =
      (arange (-theta_max) (theta_max + delta_theta) delta_theta).map
        (fun i => It1at N lambda_ n h i) := rfl
  rw [hIt, getD_map_lt _ _ 0 _ (by exact hidx)]
  rfl

/-- C1 witness: a concrete sweep (`theta_max = 1`, `delta_theta = 1/2`,
`N = 2`) is nonempty and its first intensity entry satisfies the
decomposition. -/
theorem It1_per_order_decomposition_witness :
    0 < (calculate_interference 2 500 10 25000 1 0 1 (1/2) 0).i1.length ∧
    (calculate_interference 2 500 10 25000 1 0 1 (1/2) 0).It_1.getD 0 0 =
      Complex.abs (∑ j ∈ Finset.range 2,
        ((Asi * Ts ((calculate_interference 2 500 10 25000 1 0 1 (1/2) 0).i1.getD 0 0)
            (r1 10 ((calculate_interference 2 500 10 25000 1 0 1 (1/2) 0).i1.getD 0 0)) *
          Ts (r1 10 ((calculate_interference 2 500 10 25000 1 0 1 (1/2) 0).i1.getD 0 0))
            ((calculate_interference 2 500 10 25000 1 0 1 (1/2) 0).i1.getD 0 0) : ℝ) : ℂ) *
          ((Rs (r1 10 ((calculate_interference 2 500 10 25000 1 0 1 (1/2) 0).i1.getD 0 0))
            ((calculate_interference 2 500 10 25000 1 0 1 (1/2) 0).i1.getD 0 0) : ℝ) : ℂ) ^ (2 * j) *
          Complex.exp (Complex.I *
            ((4 * Real.pi / 500 * 10 * 25000 *
              Real.cos (r1 10 ((calculate_interference 2 500 10 25000 1 0 1 (1/2) 0).i1.getD 0 0)) : ℝ) : ℂ)) ^ j) ^ 2 +
      Complex.abs (∑ j ∈ Finset.range 2,
        ((Api * Tp ((calculate_interference 2 500 10 25000 1 0 1 (1/2) 0).i1.getD 0 0)
            (r1 10 ((calculate_interference 2 500 10 25000 1 0 1 (1/2) 0).i1.getD 0 0)) *
          Tp (r1 10 ((calculate_interference 2 500 10 25000 1 0 1 (1/2) 0).i1.getD 0 0))
            ((calculate_interference 2 500 10 25000 1 0 1 (1/2) 0).i1.getD 0 0) : ℝ) : ℂ) *
          ((Rp (r1 10 ((calculate_interference 2 500 10 25000 1 0 1 (1/2) 0).i1.getD 0 0))
            ((calculate_interference 2 500 10 25000 1 0 1 (1/2) 0).i1.getD 0 0) : ℝ) : ℂ) ^ (2 * j) *
          Complex.exp (Complex.I *
            ((4 * Real.pi / 500 * 10 * 25000 *
              Real.cos (r1 10 ((calculate_interference 2 500 10 25000 1 0 1 (1/2) 0).i1.getD 0 0)) : ℝ) : ℂ)) ^ j) ^ 2 := by
  have hlen : 0 < (calculate_interference 2 500 10 25000 1 0 1 (1/2) 0).i1.length := by
    have hl : (calculate_interference 2 500 10 25000 1 0 1 (1/2) 0).i1 =
        arange (-1) (1 + 1/2) (1/2) := rfl
    rw [hl, arange_length]
    apply Nat.ceil_pos.mpr
    norm_num
  exact ⟨hlen,
    It1_per_order_decomposition 2 500 10 25000 1 0 1 (1/2) 0 0 hlen _ rfl⟩

/-- Closed form of `s_amplitudes[j]` (0-based): entry `j` is
`As_dir * (Rs(ii, r)**2)**j`, i.e. the order `j+1` term of the source's
`As_dir * (Rs(ii, r)**2)**(orders - 1)`. -/
lemma s_amplitudes_getD (N : ℕ)
    (lambda_ n h Ai a theta_max delta_theta fixed_angle : ℝ)
    (j : ℕ) (hj : j < N) :
    (calculate_interference N lambda_ n h Ai a theta_max delta_theta
        fixed_angle).s_amplitudes.getD j 0 =
      Asi * Ts fixed_angle (r1 n fixed_angle) * Ts (r1 n fixed_angle) fixed_angle *
        (Rs fixed_angle (r1 n fixed_angle) ^ 2) ^ j := by
  have hs : (calculate_interference N lambda_ n h Ai a theta_max delta_theta
      fixed_angle).s_amplitudes =
      ((List.range N).map (fun j => j + 1)).map
        (fun o => Asi * Ts fixed_angle (r1 n fixed_angle) *
          Ts (r1 n fixed_angle) fixed_angle *
          (Rs fixed_angle (r1 n fixed_angle) ^ 2) ^ (o - 1)) := rfl
  rw [hs, List.map_map,
    getD_map_lt _ _ 0 _ (by rw [List.length_range]; exact hj),
    range_getD _ _ hj]
  simp

/-- Closed form of `p_amplitudes[j]` (0-based). -/
lemma p_amplitudes_getD (N : ℕ)
    (lambda_ n h Ai a theta_max delta_theta fixed_angle : ℝ)
    (j : ℕ) (hj : j < N) :
    (calculate_interference N lambda_ n h Ai a theta_max delta_theta
        fixed_angle).p_amplitudes.getD j 0 =
      Api * Tp fixed_angle (r1 n fixed_angle) * Tp (r1 n fixed_angle) fixed_angle *
        (Rp fixed_angle (r1 n fixed_angle) ^ 2) ^ j := by
  have hp : (calculate_interference N lambda_ n h Ai a theta_max delta_theta
      fixed_angle).p_amplitudes =
      ((List.range N).map (fun j => j + 1)).map
        (fun o => Api * Tp fixed_angle (r1 n fixed_angle) *
          Tp (r1 n fixed_angle) fixed_angle *
          (Rp fixed_angle (r1 n fixed_angle) ^ 2) ^ (o - 1)) := rfl
  rw [hp, List.map_map,
    getD_map_lt _ _ 0 _ (by rw [List.length_range]; exact hj),
    range_getD _ _ hj]
  simp

/-- C8 counterexample: with film index `n = 1` and fixed angle `π/4` the
internal reflectance is `0`, so `reflectance² = 0 < 1`, yet `s_amplitudes`
is not strictly monotonically decreasing in magnitude: entries 1 and 2
(0-based) are both `0`. -/
theorem s_amplitudes_not_strictly_decreasing :
    Rs (Real.pi / 4) (r1 1 (Real.pi / 4)) ^ 2 < 1 ∧
    ¬ (|(calculate_interference 3 500 1 25000 1 0 1 (1/2)
          (Real.pi / 4)).s_amplitudes.getD 2 0| <
       |(calculate_interference 3 500 1 25000 1 0 1 (1/2)
          (Real.pi / 4)).s_amplitudes.getD 1 0|) := by
  have hpi := Real.pi_pos
  have hr : r1 1 (Real.pi / 4) = Real.pi / 4 := by
    unfold r1
    rw [div_one]
    exact Real.arcsin_sin (by linarith) (by linarith)
  have hRs : Rs (Real.pi / 4) (r1 1 (Real.pi / 4)) = 0 := by
    rw [hr]
    unfold Rs
    rw [sub_self, Real.sin_zero]
    simp
  constructor
  · rw [hRs]
    norm_num
  · rw [s_amplitudes_getD 3 500 1 25000 1 0 1 (1/2) (Real.pi / 4) 2 (by norm_num),
      s_amplitudes_getD 3 500 1 25000 1 0 1 (1/2) (Real.pi / 4) 1 (by norm_num),
      hRs]
    norm_num

/-- C8 amended: the per-order amplitude sequences follow the geometric law
`amplitude(order) = direct_amplitude * (reflectance²)^(order-1)` for orders
`1..N`; and each sequence is strictly monotonically decreasing in magnitude
provided its direct amplitude is nonzero and `0 < reflectance² < 1` (when
the reflectance is `0`, or the direct amplitude is `0`, consecutive entries
are equal from order 2 on, so strictness needs these extra hypotheses). -/
theorem amplitudes_geometric_and_decay (N : ℕ)
    (lambda_ n h Ai a theta_max delta_theta fixed_angle : ℝ) :
    (∀ o : ℕ, 1 ≤ o → o ≤ N →
      (calculate_interference N lambda_ n h Ai a theta_max delta_theta
          fixed_angle).s_amplitudes.getD (o - 1) 0 =
        Asi * Ts fixed_angle (r1 n fixed_angle) *
          Ts (r1 n fixed_angle) fixed_angle *
          (Rs fixed_angle (r1 n fixed_angle) ^ 2) ^ (o - 1) ∧
      (calculate_interference N lambda_ n h Ai a theta_max delta_theta
          fixed_angle).p_amplitudes.getD (o - 1) 0 =
        Api * Tp fixed_angle (r1 n fixed_angle) *
          Tp (r1 n fixed_angle) fixed_angle *
          (Rp fixed_angle (r1 n fixed_angle) ^ 2) ^ (o - 1)) ∧
    (Asi * Ts fixed_angle (r1 n fixed_angle) *
        Ts (r1 n fixed_angle) fixed_angle ≠ 0 →
      0 < Rs fixed_angle (r1 n fixed_angle) ^ 2 →
      Rs fixed_angle (r1 n fixed_angle) ^ 2 < 1 →
      ∀ j : ℕ, j + 1 < N →
        |(calculate_interference N lambda_ n h Ai a theta_max delta_theta
            fixed_angle).s_amplitudes.getD (j + 1) 0| <
        |(calculate_interference N lambda_ n h Ai a theta_max delta_theta
            fixed_angle).s_amplitudes.getD j 0|) ∧
    (Api * Tp fixed_angle (r1 n fixed_angle) *
        Tp (r1 n fixed_angle) fixed_angle ≠ 0 →
      0 < Rp fixed_angle (r1 n fixed_angle) ^ 2 →
      Rp fixed_angle (r1 n fixed_angle) ^ 2 < 1 →
      ∀ j : ℕ, j + 1 < N →
        |(calculate_interference N lambda_ n h Ai a theta_max delta_theta
            fixed_angle).p_amplitudes.getD (j + 1) 0| <
        |(calculate_interference N lambda_ n h Ai a theta_max delta_theta
            fixed_angle).p_amplitudes.getD j 0|) := by
  refine ⟨?_, ?_, ?_⟩
  · intro o h1 hN
    exact ⟨s_amplitudes_getD N lambda_ n h Ai a theta_max delta_theta
        fixed_angle (o - 1) (by omega),
      p_amplitudes_getD N lambda_ n h Ai a theta_max delta_theta
        fixed_angle (o - 1) (by omega)⟩
  · intro hA h0 h1 j hj
    rw [s_amplitudes_getD N lambda_ n h Ai a theta_max delta_theta
        fixed_angle (j + 1) (by omega),
      s_amplitudes_getD N lambda_ n h Ai a theta_max delta_theta
        fixed_angle j (by omega)]
    have habs : ∀ p : ℕ,
        |Asi * Ts fixed_angle (r1 n fixed_angle) *
            Ts (r1 n fixed_angle) fixed_angle *
            (Rs fixed_angle (r1 n fixed_angle) ^ 2) ^ p| =
          |Asi * Ts fixed_angle (r1 n fixed_angle) *
            Ts (r1 n fixed_angle) fixed_angle| *
            (Rs fixed_angle (r1 n fixed_angle) ^ 2) ^ p := by
      intro p
      rw [abs_mul]
      congr 1
      exact abs_of_nonneg (pow_nonneg (sq_nonneg _) _)
    rw [habs, habs]
    exact mul_lt_mul_of_pos_left
      (pow_lt_pow_right_of_lt_one h0 h1 (Nat.lt_succ_self j))
      (abs_pos.mpr hA)
  · intro hA h0 h1 j hj
    rw [p_amplitudes_getD N lambda_ n h Ai a theta_max delta_theta
        fixed_angle (j + 1) (by omega),
      p_amplitudes_getD N lambda_ n h Ai a theta_max delta_theta
        fixed_angle j (by omega)]
    have habs : ∀ p : ℕ,
        |Api * Tp fixed_angle (r1 n fixed_angle) *
            Tp (r1 n fixed_angle) fixed_angle *
            (Rp fixed_angle (r1 n fixed_angle) ^ 2) ^ p| =
          |Api * Tp fixed_angle (r1 n fixed_angle) *
            Tp (r1 n fixed_angle) fixed_angle| *
            (Rp fixed_angle (r1 n fixed_angle) ^ 2) ^ p := by
      intro p
      rw [abs_mul]
      congr 1
      exact abs_of_nonneg (pow_nonneg (sq_nonneg _) _)
    rw [habs, habs]
    exact mul_lt_mul_of_pos_left
      (pow_lt_pow_right_of_lt_one h0 h1 (Nat.lt_succ_self j))
      (abs_pos.mpr hA)

/-- C8 amended witness: with `n = √2` and fixed angle `π/4` (refraction
`π/6`), both reflectances squared lie strictly between 0 and 1 and both
direct amplitudes are nonzero; order 2 follows the geometric law, and the
magnitudes strictly decrease from order 1 to order 2. -/
theorem amplitudes_geometric_and_decay_witness :
    (calculate_interference 3 500 (Real.sqrt 2) 25000 1 0 1 (1/2)
        (Real.pi / 4)).s_amplitudes.getD 1 0 =
      Asi * Ts (Real.pi / 4) (r1 (Real.sqrt 2) (Real.pi / 4)) *
        Ts (r1 (Real.sqrt 2) (Real.pi / 4)) (Real.pi / 4) *
        (Rs (Real.pi / 4) (r1 (Real.sqrt 2) (Real.pi / 4)) ^ 2) ^ 1 ∧
    |(calculate_interference 3 500 (Real.sqrt 2) 25000 1 0 1 (1/2)
        (Real.pi / 4)).s_amplitudes.getD 1 0| <
      |(calculate_interference 3 500 (Real.sqrt 2) 25000 1 0 1 (1/2)
        (Real.pi / 4)).s_amplitudes.getD 0 0| ∧
    |(calculate_interference 3 500 (Real.sqrt 2) 25000 1 0 1 (1/2)
        (Real.pi / 4)).p_amplitudes.getD 1 0| <
      |(calculate_interference 3 500 (Real.sqrt 2) 25000 1 0 1 (1/2)
        (Real.pi / 4)).p_amplitudes.getD 0 0| := by
  have hpi := Real.pi_pos
  have hr : r1 (Real.sqrt 2) (Real.pi / 4) = Real.pi / 6 := by
    unfold r1
    rw [Real.sin_pi_div_four]
    have h2 : Real.sqrt 2 / 2 / Real.sqrt 2 = 1 / 2 := by
      have hs2 : (0 : ℝ) < Real.sqrt 2 := Real.sqrt_pos.mpr (by norm_num)
      rw [div_div, div_eq_div_iff (by positivity) (by norm_num)]
      ring
    rw [h2, show (1 / 2 : ℝ) = Real.sin (Real.pi / 6) from
      (Real.sin_pi_div_six).symm]
    exact Real.arcsin_sin (by linarith) (by linarith)
  have hsin16 : 0 < Real.sin (Real.pi / 6) :=
    Real.sin_pos_of_pos_of_lt_pi (by linarith) (by linarith)
  have hsin14 : 0 < Real.sin (Real.pi / 4) :=
    Real.sin_pos_of_pos_of_lt_pi (by linarith) (by linarith)
  have hsinsum : 0 < Real.sin (Real.pi / 4 + Real.pi / 6) :=
    Real.sin_pos_of_pos_of_lt_pi (by linarith) (by linarith)
  have hsinsum' : 0 < Real.sin (Real.pi / 6 + Real.pi / 4) :=
    Real.sin_pos_of_pos_of_lt_pi (by linarith) (by linarith)
  have hsindiff : 0 < Real.sin (Real.pi / 4 - Real.pi / 6) :=
    Real.sin_pos_of_pos_of_lt_pi (by linarith) (by linarith)
  have hcos14 : 0 < Real.cos (Real.pi / 4) :=
    Real.cos_pos_of_mem_Ioo ⟨by linarith, by linarith⟩
  have hcos16 : 0 < Real.cos (Real.pi / 6) :=
    Real.cos_pos_of_mem_Ioo ⟨by linarith, by linarith⟩
  have hcosdiff : 0 < Real.cos (Real.pi / 4 - Real.pi / 6) :=
    Real.cos_pos_of_mem_Ioo ⟨by linarith, by linarith⟩
  have hcosdiff' : 0 < Real.cos (Real.pi / 6 - Real.pi / 4) :=
    Real.cos_pos_of_mem_Ioo ⟨by linarith, by linarith⟩
  have hAsi : 0 < Asi := by
    unfold Asi Ai_const a_const
    rw [one_mul]
    exact Real.sin_pos_of_pos_of_lt_pi (by positivity) (by linarith)
  have hApi : 0 < Api := by
    unfold Api Ai_const a_const
    rw [one_mul]
    exact Real.cos_pos_of_mem_Ioo ⟨by linarith, by linarith⟩
  have hTs1 : 0 < Ts (Real.pi / 4) (Real.pi / 6) := by
    unfold Ts
    exact div_pos (mul_pos (mul_pos two_pos hsin16) hcos14) hsinsum
  have hTs2 : 0 < Ts (Real.pi / 6) (Real.pi / 4) := by
    unfold Ts
    exact div_pos (mul_pos (mul_pos two_pos hsin14) hcos16) hsinsum'
  have hTp1 : 0 < Tp (Real.pi / 4) (Real.pi / 6) := by
    unfold Tp
    exact div_pos (mul_pos (mul_pos two_pos hsin16) hcos14)
      (mul_pos hsinsum hcosdiff)
  have hTp2 : 0 < Tp (Real.pi / 6) (Real.pi / 4) := by
    unfold Tp
    exact div_pos (mul_pos (mul_pos two_pos hsin14) hcos16)
      (mul_pos hsinsum' hcosdiff')
  have hA : Asi * Ts (Real.pi / 4) (r1 (Real.sqrt 2) (Real.pi / 4)) *
      Ts (r1 (Real.sqrt 2) (Real.pi / 4)) (Real.pi / 4) ≠ 0 := by
    rw [hr]
    exact ne_of_gt (mul_pos (mul_pos hAsi hTs1) hTs2)
  have hApd : Api * Tp (Real.pi / 4) (r1 (Real.sqrt 2) (Real.pi / 4)) *
      Tp (r1 (Real.sqrt 2) (Real.pi / 4)) (Real.pi / 4) ≠ 0 := by
    rw [hr]
    exact ne_of_gt (mul_pos (mul_pos hApi hTp1) hTp2)
  have hRs_neg : Rs (Real.pi / 4) (Real.pi / 6) < 0 := by
    unfold Rs
    exact div_neg_of_neg_of_pos (neg_lt_zero.mpr hsindiff) hsinsum
  have hmono : Real.sin (Real.pi / 4 - Real.pi / 6) <
      Real.sin (Real.pi / 4 + Real.pi / 6) :=
    Real.sin_lt_sin_of_lt_of_le_pi_div_two (by linarith) (by linarith)
      (by linarith)
  have hRs_gt : -1 < Rs (Real.pi / 4) (Real.pi / 6) := by
    unfold Rs
    rw [lt_div_iff hsinsum]
    linarith
  have h0s : 0 < Rs (Real.pi / 4) (r1 (Real.sqrt 2) (Real.pi / 4)) ^ 2 := by
    rw [hr]
    exact lt_of_le_of_ne (sq_nonneg _)
      (Ne.symm (pow_ne_zero 2 (ne_of_lt hRs_neg)))
  have h1s : Rs (Real.pi / 4) (r1 (Real.sqrt 2) (Real.pi / 4)) ^ 2 < 1 := by
    rw [hr]
    nlinarith
  have htan12 : 0 < Real.tan (Real.pi / 4 - Real.pi / 6) :=
    Real.tan_pos_of_pos_of_lt_pi_div_two (by linarith) (by linarith)
  have htansum : 0 < Real.tan (Real.pi / 4 + Real.pi / 6) :=
    Real.tan_pos_of_pos_of_lt_pi_div_two (by linarith) (by linarith)
  have htanmono : Real.tan (Real.pi / 4 - Real.pi / 6) <
      Real.tan (Real.pi / 4 + Real.pi / 6) :=
    Real.tan_lt_tan_of_lt_of_lt_pi_div_two (by linarith) (by linarith)
      (by linarith)
  have hRp_pos : 0 < Rp (Real.pi / 4) (Real.pi / 6) := by
    unfold Rp
    exact div_pos htan12 htansum
  have hRp_lt1 : Rp (Real.pi / 4) (Real.pi / 6) < 1 := by
    unfold Rp
    rw [div_lt_one htansum]
    exact htanmono
  have h0p : 0 < Rp (Real.pi / 4) (r1 (Real.sqrt 2) (Real.pi / 4)) ^ 2 := by
    rw [hr]
    exact pow_pos hRp_pos 2
  have h1p : Rp (Real.pi / 4) (r1 (Real.sqrt 2) (Real.pi / 4)) ^ 2 < 1 := by
    rw [hr]
    nlinarith
  have main := amplitudes_geometric_and_decay 3 500 (Real.sqrt 2) 25000 1 0 1
    (1/2) (Real.pi / 4)
  exact ⟨(main.1 2 (by norm_num) (by norm_num)).1,
    main.2.1 hA h0s h1s 0 (by norm_num),
    main.2.2 hApd h0p h1p 0 (by norm_num)⟩

end MultiBeam
